import Mathlib

/-!
Shallow embedding of `core/src/cluster_slots_service.rs` (ClusterSlotsService).

The service is a background loop interacting with external collaborators
(blockstore, bank_forks, cluster_info, cluster_slots, a crossbeam channel and
an exit flag).  We embed it as a trace-producing function: every observable
collaborator interaction becomes an `Event`, and the nondeterministic inputs of
one loop iteration (the exit-flag value read at the top, the outcome of
`recv_timeout`, the root and lowest-slot values read from the collaborators,
the batches visible to the non-blocking `try_recv` drain, the measured
durations, and the wall clock in whole seconds, the granularity at which the
code observes it via `elapsed().as_secs()`) are supplied by an `IterEnv` per
iteration.  `Slot` is `u64` in the source; the code only compares and sorts
slots, so we use `Nat`.  Rust `Vec::sort` / `sort_unstable` produce the unique
ascending reordering of a list of naturals, embedded as `List.insertionSort`.
-/

namespace ClusterSlotsService

abbrev Slot := Nat

/-- Timing accumulator, `struct ClusterSlotsServiceTiming` (source lines 20-24). -/
structure ClusterSlotsServiceTiming where
  lowest_slot_elapsed : Nat
  process_cluster_slots_updates_elapsed : Nat
  deriving Repr, DecidableEq

/-- The `Default` derive of the Rust struct: both counters start at zero. -/
def ClusterSlotsServiceTiming.default : ClusterSlotsServiceTiming := ⟨0, 0⟩

/-- Source `ClusterSlotsServiceTiming::update` (lines 27-30): add both elapsed
durations into the corresponding counters.  The counters are `u64`, so `+=`
wraps modulo `2 ^ 64` (release-mode semantics; debug mode would panic at the
same boundary). -/
def ClusterSlotsServiceTiming.update (t : ClusterSlotsServiceTiming)
    (lowest_slot_elapsed process_cluster_slots_updates_elapsed : Nat) :
    ClusterSlotsServiceTiming :=
  ⟨(t.lowest_slot_elapsed + lowest_slot_elapsed) % 2 ^ 64,
    (t.process_cluster_slots_updates_elapsed + process_cluster_slots_updates_elapsed) % 2 ^ 64⟩

/-- Observable interactions of the service with its collaborators. -/
inductive Event where
  /-- a `recv_timeout` call on the inbound channel (the blocking wait) -/
  | recvWait : Event
  /-- `bank_forks.read().unwrap().root()` returned `root` (line 94) -/
  | readRoot (root : Slot) : Event
  /-- `blockstore.lowest_slot()` returned `s` (lines 96, 157) -/
  | queryLowestSlot (s : Slot) : Event
  /-- `cluster_info.push_lowest_slot(s)` (lines 157, 161) -/
  | pushLowestSlot (s : Slot) : Event
  /-- `cluster_info.push_epoch_slots(&slots)` (lines 148, 173) -/
  | pushEpochSlots (slots : List Slot) : Event
  /-- `cluster_slots.update(new_root, ...)` (line 108), the aggregate reconcile -/
  | updateClusterSlots (root : Slot) : Event
  /-- the `warn!` log on channel disconnect (line 90) -/
  | warnSenderDisconnected : Event
  /-- the `datapoint_info!` metrics observation (lines 117-129) -/
  | datapoint (lowest_slot_elapsed process_cluster_slots_updates_elapsed : Nat) : Event
  deriving Repr, DecidableEq

/-- Result of `recv_timeout` (source lines 85-93). -/
inductive RecvOutcome where
  | ok (batch : List Slot) : RecvOutcome
  | timeout : RecvOutcome
  | disconnected : RecvOutcome
  deriving Repr, DecidableEq

/-- The error that finally stops the `while let Ok(..) = try_recv()` drain:
`try_recv` returns `Err(Empty)` or `Err(Disconnected)`; the drain loop exits on
either without distinguishing them. -/
inductive TryRecvErr where
  | empty : TryRecvErr
  | disconnected : TryRecvErr
  deriving Repr, DecidableEq

/-- Ascending sort used for `slots.sort()` (line 145) and
`frozen_bank_slots.sort_unstable()` (line 170).  Both are ascending sorts and a
sorted permutation of a list of naturals is unique, so one embedding serves. -/
def sortSlots (l : List Slot) : List Slot :=
  List.insertionSort (· ≤ ·) l

/-- The drain `while let Ok(mut more) = cluster_slots_update_receiver.try_recv()
\x7b slots.append(&mut more); \x7d` (lines 141-143): `pending` is the sequence of
batches the successive `try_recv` calls deliver, `stopErr` the error that ends
the loop (ignored by the code, which only pattern-matches `Ok`). -/
def drainPending (slots : List Slot) : List (List Slot) → TryRecvErr → List Slot
  | [], _ => slots
  | more :: rest, stopErr => drainPending (slots ++ more) rest stopErr

/-- Source `process_cluster_slots_updates` (lines 136-150): drain all pending
batches into the seed batch, sort ascending, and push as one epoch-slots
advertisement unless empty. -/
def process_cluster_slots_updates (slots : List Slot) (pending : List (List Slot))
    (stopErr : TryRecvErr) : List Event :=
  let combined := drainPending slots pending stopErr
  let sorted := sortSlots combined
  if sorted.isEmpty then [] else [Event.pushEpochSlots sorted]

/-- Source `update_lowest_slot` (lines 160-162). -/
def update_lowest_slot (lowest : Slot) : List Event :=
  [Event.pushLowestSlot lowest]

/-- Source `initialize_lowest_slot` (lines 152-158): query the blockstore lowest
slot and push it. -/
def init_lowest_slot (blockstoreLowest : Slot) : List Event :=
  Event.queryLowestSlot blockstoreLowest :: update_lowest_slot blockstoreLowest

/-- Source `initialize_epoch_slots` (lines 164-175): sort the frozen bank slots
ascending and push them as an epoch-slots advertisement unless empty. -/
def init_epoch_slots (frozenBankSlots : List Slot) : List Event :=
  let sorted := sortSlots frozenBankSlots
  if sorted.isEmpty then [] else [Event.pushEpochSlots sorted]

/-- External inputs consumed by one iteration of the loop in `run`. -/
structure IterEnv where
  /-- value of `exit.load(Ordering::Relaxed)` at the top of the iteration -/
  exitFlag : Bool
  /-- outcome of `recv_timeout(Duration::from_millis(200))` -/
  recv : RecvOutcome
  /-- `bank_forks.read().unwrap().root()` -/
  root : Slot
  /-- `blockstore.lowest_slot()` -/
  lowestSlot : Slot
  /-- batches visible to the non-blocking drain of this iteration -/
  drained : List (List Slot)
  /-- the `try_recv` error that ends this iteration's drain -/
  drainStop : TryRecvErr
  /-- `lowest_slot_elapsed.as_us()` measured this iteration -/
  lowestElapsedUs : Nat
  /-- `process_cluster_slots_updates_elapsed.as_us()` measured this iteration -/
  processElapsedUs : Nat
  /-- the wall clock, in whole seconds, when `last_stats.elapsed()` is read -/
  now : Nat
  deriving Repr, DecidableEq

/-- Mutable state of `run` across iterations: the timing accumulator and the
`last_stats` instant (in whole seconds). -/
structure RunState where
  timing : ClusterSlotsServiceTiming
  lastStats : Nat
  deriving Repr, DecidableEq

/-- How the loop ended: `break` at the exit-flag check, `break` on channel
disconnect, or the supply of modelled iterations ran out (the real loop would
keep iterating). -/
inductive StopReason where
  | exited : StopReason
  | disconnected : StopReason
  | envExhausted : StopReason
  deriving Repr, DecidableEq

/-- The `match` on `recv_timeout` (lines 85-93) restricted to the two
non-breaking arms: `Ok(slots) => Some(slots)`, `Err(Timeout) => None`. -/
def recvOption : RecvOutcome → Option (List Slot)
  | RecvOutcome.ok batch => some batch
  | RecvOutcome.timeout => none
  | RecvOutcome.disconnected => none

/-- Body of one iteration after the exit-flag check and a non-disconnected
receive (source lines 94-132): read root, query and push lowest slot, process
updates when a batch arrived, reconcile `cluster_slots`, fold the measured
durations, and flush the metrics when more than 2 seconds elapsed since
`last_stats`. -/
def iterBody (env : IterEnv) (slots : Option (List Slot)) (st : RunState) :
    List Event × RunState :=
  let updatesEvents :=
    match slots with
    | some s => process_cluster_slots_updates s env.drained env.drainStop
    | none => []
  let timing2 := st.timing.update env.lowestElapsedUs env.processElapsedUs
  let baseEvents :=
    Event.readRoot env.root :: Event.queryLowestSlot env.lowestSlot ::
      update_lowest_slot env.lowestSlot ++ updatesEvents ++
        [Event.updateClusterSlots env.root]
  if 2 < env.now - st.lastStats then
    (baseEvents ++
        [Event.datapoint timing2.lowest_slot_elapsed
          timing2.process_cluster_slots_updates_elapsed],
      ⟨ClusterSlotsServiceTiming.default, env.now⟩)
  else
    (baseEvents, ⟨timing2, st.lastStats⟩)

/-- The loop of `run` (lines 81-133) over the per-iteration inputs `envs`:
check the exit flag, wait on the channel (break with a warning on disconnect),
then run the iteration body. -/
def runLoop : List IterEnv → RunState → List Event × StopReason
  | [], _ => ([], StopReason.envExhausted)
  | env :: rest, st =>
    if env.exitFlag then ([], StopReason.exited)
    else if env.recv = RecvOutcome.disconnected then
      ([Event.recvWait, Event.warnSenderDisconnected], StopReason.disconnected)
    else
      let body := iterBody env (recvOption env.recv) st
      let tail := runLoop rest body.2
      (Event.recvWait :: body.1 ++ tail.1, tail.2)

/-- Source `run` (lines 71-134): the loop started with a default timing
accumulator and `last_stats = Instant::now()` (= `startNow`). -/
def run (startNow : Nat) (envs : List IterEnv) : List Event × StopReason :=
  runLoop envs ⟨ClusterSlotsServiceTiming.default, startNow⟩

/-- Source `ClusterSlotsService::new` (lines 38-65): run the two initializers
synchronously, then spawn the loop thread; the returned trace therefore has the
startup events strictly before every loop event. -/
def new (blockstoreLowest : Slot) (frozenBankSlots : List Slot) (startNow : Nat)
    (envs : List IterEnv) : List Event × StopReason :=
  let startupEvents := init_lowest_slot blockstoreLowest ++ init_epoch_slots frozenBankSlots
  let loop := run startNow envs
  (startupEvents ++ loop.1, loop.2)

/-- Recognizes a lowest-slot advertisement. -/
def isLowestAd : Event → Bool
  | Event.pushLowestSlot _ => true
  | _ => false

/-- Recognizes an epoch-slots (slot-set) advertisement. -/
def isEpochAd : Event → Bool
  | Event.pushEpochSlots _ => true
  | _ => false

/-- Recognizes a metrics observation. -/
def isDatapoint : Event → Bool
  | Event.datapoint _ _ => true
  | _ => false

theorem sortSlots_sorted (l : List Slot) : List.Sorted (· ≤ ·) (sortSlots l) :=
  List.sorted_insertionSort _ l

theorem sortSlots_perm (l : List Slot) : (sortSlots l).Perm l :=
  List.perm_insertionSort _ l

theorem sortSlots_eq_nil_iff (l : List Slot) : sortSlots l = [] ↔ l = [] := by
  constructor
  · intro h
    have hp := sortSlots_perm l
    rw [h] at hp
    exact hp.symm.eq_nil
  · intro h
    subst h
    rfl

theorem drainPending_eq_append (slots : List Slot) (pending : List (List Slot))
    (stopErr : TryRecvErr) : drainPending slots pending stopErr = slots ++ pending.flatten := by
  induction pending generalizing slots with
  | nil => simp [drainPending]
  | cons more rest ih => simp [drainPending, ih]

theorem process_cluster_slots_updates_eq (slots : List Slot) (pending : List (List Slot))
    (stopErr : TryRecvErr) :
    process_cluster_slots_updates slots pending stopErr =
      if slots ++ pending.flatten = [] then []
      else [Event.pushEpochSlots (sortSlots (slots ++ pending.flatten))] := by
  unfold process_cluster_slots_updates
  rw [drainPending_eq_append]
  by_cases h : slots ++ pending.flatten = []
  · simp [h, sortSlots, List.insertionSort]
  · simp [h, List.isEmpty_iff, sortSlots_eq_nil_iff]

theorem mem_process_ne_nil (slots : List Slot) (pending : List (List Slot))
    (stopErr : TryRecvErr) (l : List Slot)
    (h : Event.pushEpochSlots l ∈ process_cluster_slots_updates slots pending stopErr) :
    l ≠ [] := by
  rw [process_cluster_slots_updates_eq] at h
  by_cases hc : slots ++ pending.flatten = []
  · simp [hc] at h
  · simp [hc] at h
    subst h
    simp [sortSlots_eq_nil_iff, hc]

theorem filter_lowest_process (slots : List Slot) (pending : List (List Slot))
    (stopErr : TryRecvErr) :
    (process_cluster_slots_updates slots pending stopErr).filter isLowestAd = [] := by
  rw [process_cluster_slots_updates_eq]
  split <;> simp [isLowestAd]

theorem filter_datapoint_process (slots : List Slot) (pending : List (List Slot))
    (stopErr : TryRecvErr) :
    (process_cluster_slots_updates slots pending stopErr).filter isDatapoint = [] := by
  rw [process_cluster_slots_updates_eq]
  split <;> simp [isDatapoint]

theorem filter_epoch_process (slots : List Slot) (pending : List (List Slot))
    (stopErr : TryRecvErr) :
    (process_cluster_slots_updates slots pending stopErr).filter isEpochAd
      = process_cluster_slots_updates slots pending stopErr := by
  rw [process_cluster_slots_updates_eq]
  split <;> simp [isEpochAd]

theorem iterBody_fst (env : IterEnv) (slots : Option (List Slot)) (st : RunState) :
    (iterBody env slots st).1 =
      Event.readRoot env.root :: Event.queryLowestSlot env.lowestSlot ::
        Event.pushLowestSlot env.lowestSlot ::
        ((slots.elim [] fun s => process_cluster_slots_updates s env.drained env.drainStop) ++
          Event.updateClusterSlots env.root ::
            (if 2 < env.now - st.lastStats then
              [Event.datapoint
                (st.timing.update env.lowestElapsedUs env.processElapsedUs).lowest_slot_elapsed
                (st.timing.update env.lowestElapsedUs env.processElapsedUs).process_cluster_slots_updates_elapsed]
             else [])) := by
  unfold iterBody update_lowest_slot
  cases slots <;> by_cases h : 2 < env.now - st.lastStats <;> simp [h]

theorem iterBody_snd (env : IterEnv) (slots : Option (List Slot)) (st : RunState) :
    (iterBody env slots st).2 =
      if 2 < env.now - st.lastStats then ⟨ClusterSlotsServiceTiming.default, env.now⟩
      else ⟨st.timing.update env.lowestElapsedUs env.processElapsedUs, st.lastStats⟩ := by
  unfold iterBody
  by_cases h : 2 < env.now - st.lastStats <;> simp [h]

theorem iterBody_filter_lowest (env : IterEnv) (slots : Option (List Slot)) (st : RunState) :
    (iterBody env slots st).1.filter isLowestAd = [Event.pushLowestSlot env.lowestSlot] := by
  rw [iterBody_fst]
  cases slots <;> by_cases h : 2 < env.now - st.lastStats <;>
    simp [h, isLowestAd, filter_lowest_process]

theorem iterBody_filter_datapoint (env : IterEnv) (slots : Option (List Slot)) (st : RunState) :
    (iterBody env slots st).1.filter isDatapoint =
      if 2 < env.now - st.lastStats then
        [Event.datapoint
          (st.timing.update env.lowestElapsedUs env.processElapsedUs).lowest_slot_elapsed
          (st.timing.update env.lowestElapsedUs env.processElapsedUs).process_cluster_slots_updates_elapsed]
      else [] := by
  rw [iterBody_fst]
  cases slots <;> by_cases h : 2 < env.now - st.lastStats <;>
    simp [h, isDatapoint, filter_datapoint_process]

theorem mem_iterBody_ne_nil (env : IterEnv) (slots : Option (List Slot)) (st : RunState)
    (l : List Slot) (h : Event.pushEpochSlots l ∈ (iterBody env slots st).1) : l ≠ [] := by
  rw [iterBody_fst] at h
  cases slots with
  | none =>
    by_cases hc : 2 < env.now - st.lastStats <;> simp [hc] at h
  | some s =>
    by_cases hc : 2 < env.now - st.lastStats <;> simp [hc] at h <;>
      exact mem_process_ne_nil s env.drained env.drainStop l h

theorem runLoop_cons_exit (env : IterEnv) (rest : List IterEnv) (st : RunState)
    (h : env.exitFlag = true) :
    runLoop (env :: rest) st = ([], StopReason.exited) := by
  simp [runLoop, h]

theorem runLoop_cons_disconnect (env : IterEnv) (rest : List IterEnv) (st : RunState)
    (h1 : env.exitFlag = false) (h2 : env.recv = RecvOutcome.disconnected) :
    runLoop (env :: rest) st
      = ([Event.recvWait, Event.warnSenderDisconnected], StopReason.disconnected) := by
  simp [runLoop, h1, h2]

theorem runLoop_cons_body (env : IterEnv) (rest : List IterEnv) (st : RunState)
    (h1 : env.exitFlag = false) (h2 : env.recv ≠ RecvOutcome.disconnected) :
    runLoop (env :: rest) st
      = (Event.recvWait :: (iterBody env (recvOption env.recv) st).1
          ++ (runLoop rest (iterBody env (recvOption env.recv) st).2).1,
         (runLoop rest (iterBody env (recvOption env.recv) st).2).2) := by
  simp [runLoop, h1, h2]

theorem mem_runLoop_ne_nil (envs : List IterEnv) (st : RunState) (l : List Slot)
    (h : Event.pushEpochSlots l ∈ (runLoop envs st).1) : l ≠ [] := by
  induction envs generalizing st with
  | nil => simp [runLoop] at h
  | cons env rest ih =>
    by_cases h1 : env.exitFlag
    · rw [runLoop_cons_exit env rest st h1] at h
      simp at h
    · by_cases h2 : env.recv = RecvOutcome.disconnected
      · rw [runLoop_cons_disconnect env rest st (by simp [h1]) h2] at h
        simp at h
      · rw [runLoop_cons_body env rest st (by simp [h1]) h2] at h
        simp at h
        rcases h with h | h
        · exact mem_iterBody_ne_nil env (recvOption env.recv) st l h
        · exact ih _ h

theorem init_epoch_slots_eq (frozen : List Slot) :
    init_epoch_slots frozen =
      if frozen = [] then [] else [Event.pushEpochSlots (sortSlots frozen)] := by
  unfold init_epoch_slots
  by_cases h : frozen = []
  · simp [h, sortSlots, List.insertionSort]
  · simp [h, List.isEmpty_iff, sortSlots_eq_nil_iff]

theorem timing_foldl (l : List (Nat × Nat)) (t : ClusterSlotsServiceTiming)
    (h1 : t.lowest_slot_elapsed < 2 ^ 64)
    (h2 : t.process_cluster_slots_updates_elapsed < 2 ^ 64) :
    l.foldl (fun acc p => acc.update p.1 p.2) t
      = ⟨(t.lowest_slot_elapsed + (l.map Prod.fst).sum) % 2 ^ 64,
         (t.process_cluster_slots_updates_elapsed + (l.map Prod.snd).sum) % 2 ^ 64⟩ := by
  induction l generalizing t with
  | nil =>
    simp only [List.foldl_nil, List.map_nil, List.sum_nil, Nat.add_zero]
    rw [Nat.mod_eq_of_lt h1, Nat.mod_eq_of_lt h2]
  | cons p rest ih =>
    simp only [List.foldl_cons, List.map_cons, List.sum_cons]
    have hb1 : (t.update p.1 p.2).lowest_slot_elapsed < 2 ^ 64 :=
      Nat.mod_lt _ (by norm_num)
    have hb2 : (t.update p.1 p.2).process_cluster_slots_updates_elapsed < 2 ^ 64 :=
      Nat.mod_lt _ (by norm_num)
    rw [ih (t.update p.1 p.2) hb1 hb2]
    simp [ClusterSlotsServiceTiming.update, Nat.mod_add_mod, Nat.add_assoc]

/-- C1: whenever a seed batch has been received, the coalescer drains every
batch queued in the channel, and the epoch-slots advertisement it forwards is
exactly the ascending sort (a permutation preserving duplicates) of the
concatenation of the seed and all drained batches, forwarded iff that combined
sequence is non-empty; in particular seed `[5,3]` plus queued `[5,8]` yields the
single advertisement `[3,5,5,8]`. -/
theorem claim_C1 :
    (∀ (seed : List Slot) (pending : List (List Slot)) (stopErr : TryRecvErr),
      process_cluster_slots_updates seed pending stopErr =
        if seed ++ pending.flatten = [] then []
        else [Event.pushEpochSlots (sortSlots (seed ++ pending.flatten))])
    ∧ (∀ l : List Slot, List.Sorted (· ≤ ·) (sortSlots l) ∧ (sortSlots l).Perm l)
    ∧ process_cluster_slots_updates [5, 3] [[5, 8]] TryRecvErr.empty
        = [Event.pushEpochSlots [3, 5, 5, 8]] :=
  ⟨process_cluster_slots_updates_eq, fun l => ⟨sortSlots_sorted l, sortSlots_perm l⟩,
    by decide⟩

/-- C2: every completed loop iteration (batch received or timeout) pushes
exactly one lowest-slot advertisement, carrying the lowest slot freshly queried
from the blockstore in that iteration; this holds also when no batch ever
arrives (`recv = timeout`). -/
theorem claim_C2 (env : IterEnv) (st : RunState) (rest : List IterEnv)
    (h1 : env.exitFlag = false) (h2 : env.recv ≠ RecvOutcome.disconnected) :
    runLoop (env :: rest) st
      = (Event.recvWait :: (iterBody env (recvOption env.recv) st).1
          ++ (runLoop rest (iterBody env (recvOption env.recv) st).2).1,
         (runLoop rest (iterBody env (recvOption env.recv) st).2).2)
    ∧ (iterBody env (recvOption env.recv) st).1.filter isLowestAd
        = [Event.pushLowestSlot env.lowestSlot] :=
  ⟨runLoop_cons_body env rest st h1 h2, iterBody_filter_lowest env (recvOption env.recv) st⟩

/-- Witness for C2 at a concrete iteration with a timed-out receive. -/
theorem claim_C2_witness :
    (iterBody ⟨false, RecvOutcome.timeout, 0, 7, [], TryRecvErr.empty, 1, 2, 0⟩
        (recvOption RecvOutcome.timeout) ⟨ClusterSlotsServiceTiming.default, 0⟩).1.filter
        isLowestAd
      = [Event.pushLowestSlot 7] :=
  (claim_C2 ⟨false, RecvOutcome.timeout, 0, 7, [], TryRecvErr.empty, 1, 2, 0⟩
      ⟨ClusterSlotsServiceTiming.default, 0⟩ [] rfl (by decide)).2

/-- C3: `push_epoch_slots` is never invoked with an empty slot sequence by any
code path — neither by the startup initializer nor by the per-iteration
coalescer, for every possible input. -/
theorem claim_C3 (blockstoreLowest : Slot) (frozen : List Slot) (startNow : Nat)
    (envs : List IterEnv) (l : List Slot)
    (h : Event.pushEpochSlots l ∈ (new blockstoreLowest frozen startNow envs).1) :
    l ≠ [] := by
  unfold new at h
  simp [init_lowest_slot, update_lowest_slot, run] at h
  rcases h with h | h
  · rw [init_epoch_slots_eq] at h
    by_cases hc : frozen = []
    · simp [hc] at h
    · simp [hc] at h
      subst h
      simp [sortSlots_eq_nil_iff, hc]
  · exact mem_runLoop_ne_nil envs _ l h

/-- Witness for C3: a concrete trace containing an epoch-slots advertisement. -/
theorem claim_C3_witness :
    Event.pushEpochSlots [2] ∈ (new 0 [2] 0 []).1 ∧ ([2] : List Slot) ≠ [] :=
  ⟨by decide, claim_C3 0 [2] 0 [] [2] (by decide)⟩

/-- C4: when the exit flag is set at the top of an iteration, the loop
terminates at once: the remaining trace is empty (no receive, no advertisement
of either kind, no aggregate reconcile) and no further iteration runs. -/
theorem claim_C4 (env : IterEnv) (rest : List IterEnv) (st : RunState)
    (h : env.exitFlag = true) :
    runLoop (env :: rest) st = ([], StopReason.exited) :=
  runLoop_cons_exit env rest st h

/-- Witness for C4 at a concrete state with the flag set. -/
theorem claim_C4_witness :
    runLoop [⟨true, RecvOutcome.timeout, 1, 2, [], TryRecvErr.empty, 3, 4, 5⟩]
        ⟨ClusterSlotsServiceTiming.default, 0⟩
      = ([], StopReason.exited) :=
  claim_C4 _ [] _ rfl

/-- C5: when `recv_timeout` reports the channel disconnected, the loop logs a
warning and terminates normally, returning `StopReason.disconnected` rather
than any fault. -/
theorem claim_C5 (env : IterEnv) (rest : List IterEnv) (st : RunState)
    (h1 : env.exitFlag = false) (h2 : env.recv = RecvOutcome.disconnected) :
    runLoop (env :: rest) st
      = ([Event.recvWait, Event.warnSenderDisconnected], StopReason.disconnected) :=
  runLoop_cons_disconnect env rest st h1 h2

/-- Witness for C5 at a concrete disconnected receive. -/
theorem claim_C5_witness :
    runLoop [⟨false, RecvOutcome.disconnected, 1, 2, [], TryRecvErr.empty, 3, 4, 5⟩]
        ⟨ClusterSlotsServiceTiming.default, 0⟩
      = ([Event.recvWait, Event.warnSenderDisconnected], StopReason.disconnected) :=
  claim_C5 _ [] _ rfl rfl

/-- C6: construction runs the startup initializer synchronously before any loop
event: first one lowest-slot advertisement carrying the blockstore's lowest
slot, then — iff the frozen-slot set is non-empty — exactly one epoch-slots
advertisement with the frozen slots sorted ascending; frozen slots `[4,2,6]`
yield exactly the startup advertisement `[2,4,6]`. -/
theorem claim_C6 :
    (∀ (blockstoreLowest : Slot) (frozen : List Slot) (startNow : Nat)
        (envs : List IterEnv),
      (new blockstoreLowest frozen startNow envs).1
        = Event.queryLowestSlot blockstoreLowest ::
            Event.pushLowestSlot blockstoreLowest ::
            ((if frozen = [] then [] else [Event.pushEpochSlots (sortSlots frozen)])
              ++ (run startNow envs).1))
    ∧ (∀ frozen : List Slot,
        List.Sorted (· ≤ ·) (sortSlots frozen) ∧ (sortSlots frozen).Perm frozen)
    ∧ (new 0 [4, 2, 6] 0 []).1
        = [Event.queryLowestSlot 0, Event.pushLowestSlot 0,
            Event.pushEpochSlots [2, 4, 6]] := by
  refine ⟨?_, fun frozen => ⟨sortSlots_sorted frozen, sortSlots_perm frozen⟩, by decide⟩
  intro b frozen startNow envs
  unfold new init_lowest_slot update_lowest_slot
  rw [init_epoch_slots_eq]
  simp

/-- C7: an iteration emits a metrics observation exactly when more than 2
seconds have elapsed since `last_stats`; on a flush both counters reset to zero
and the flush instant restarts at the current clock, otherwise the folded
counters and the old instant are kept. -/
theorem claim_C7 (env : IterEnv) (slots : Option (List Slot)) (st : RunState) :
    ((iterBody env slots st).1.filter isDatapoint
        = if 2 < env.now - st.lastStats then
            [Event.datapoint
              (st.timing.update env.lowestElapsedUs env.processElapsedUs).lowest_slot_elapsed
              (st.timing.update env.lowestElapsedUs
                env.processElapsedUs).process_cluster_slots_updates_elapsed]
          else [])
    ∧ ((iterBody env slots st).2
        = if 2 < env.now - st.lastStats then ⟨ClusterSlotsServiceTiming.default, env.now⟩
          else ⟨st.timing.update env.lowestElapsedUs env.processElapsedUs, st.lastStats⟩) :=
  ⟨iterBody_filter_datapoint env slots st, iterBody_snd env slots st⟩

/-- C8 counterexample: the counters are `u64` and `+=` wraps modulo `2 ^ 64`,
so the accumulator is not unconditionally non-decreasing: at counter value
`2 ^ 64 - 1`, folding in a duration of 2 wraps the counter down to 1. -/
theorem claim_C8_counterexample :
    ((⟨2 ^ 64 - 1, 0⟩ : ClusterSlotsServiceTiming).update 2 0) = ⟨1, 0⟩
    ∧ ¬ ((⟨2 ^ 64 - 1, 0⟩ : ClusterSlotsServiceTiming).lowest_slot_elapsed
          ≤ ((⟨2 ^ 64 - 1, 0⟩ : ClusterSlotsServiceTiming).update 2 0).lowest_slot_elapsed) := by
  constructor
  · simp [ClusterSlotsServiceTiming.update]
  · simp [ClusterSlotsServiceTiming.update]

/-- C8 (amended): the timing accumulator adds each iteration's two durations to
the corresponding counters modulo `2 ^ 64` (u64 wrapping); as long as the
mathematical sums stay below `2 ^ 64` the counters are monotonically
non-decreasing and a fold from zero yields exactly the componentwise sums
(folding (a,b) then (c,d) from zero yields ((a+c), (b+d)) modulo `2 ^ 64`);
the flushed observation carries exactly the folded totals. -/
theorem claim_C8 :
    (∀ (t : ClusterSlotsServiceTiming) (a b : Nat),
      t.update a b
          = ⟨(t.lowest_slot_elapsed + a) % 2 ^ 64,
             (t.process_cluster_slots_updates_elapsed + b) % 2 ^ 64⟩)
    ∧ (∀ (t : ClusterSlotsServiceTiming) (a b : Nat),
        t.lowest_slot_elapsed + a < 2 ^ 64 →
        t.process_cluster_slots_updates_elapsed + b < 2 ^ 64 →
        t.update a b
            = ⟨t.lowest_slot_elapsed + a, t.process_cluster_slots_updates_elapsed + b⟩
          ∧ t.lowest_slot_elapsed ≤ (t.update a b).lowest_slot_elapsed
          ∧ t.process_cluster_slots_updates_elapsed
              ≤ (t.update a b).process_cluster_slots_updates_elapsed)
    ∧ (∀ a b c d : Nat,
        (ClusterSlotsServiceTiming.default.update a b).update c d
          = ⟨(a + c) % 2 ^ 64, (b + d) % 2 ^ 64⟩)
    ∧ (∀ l : List (Nat × Nat),
        l.foldl (fun acc p => acc.update p.1 p.2) ClusterSlotsServiceTiming.default
          = ⟨(l.map Prod.fst).sum % 2 ^ 64, (l.map Prod.snd).sum % 2 ^ 64⟩)
    ∧ (∀ l : List (Nat × Nat),
        (l.map Prod.fst).sum < 2 ^ 64 → (l.map Prod.snd).sum < 2 ^ 64 →
        l.foldl (fun acc p => acc.update p.1 p.2) ClusterSlotsServiceTiming.default
          = ⟨(l.map Prod.fst).sum, (l.map Prod.snd).sum⟩)
    ∧ (∀ (env : IterEnv) (slots : Option (List Slot)) (st : RunState),
        (iterBody env slots st).1.filter isDatapoint
          = if 2 < env.now - st.lastStats then
              [Event.datapoint
                (st.timing.update env.lowestElapsedUs env.processElapsedUs).lowest_slot_elapsed
                (st.timing.update env.lowestElapsedUs
                  env.processElapsedUs).process_cluster_slots_updates_elapsed]
            else []) := by
  have hfold : ∀ l : List (Nat × Nat),
      l.foldl (fun acc p => acc.update p.1 p.2) ClusterSlotsServiceTiming.default
        = ⟨(l.map Prod.fst).sum % 2 ^ 64, (l.map Prod.snd).sum % 2 ^ 64⟩ := by
    intro l
    rw [timing_foldl l ClusterSlotsServiceTiming.default
      (by norm_num [ClusterSlotsServiceTiming.default])
      (by norm_num [ClusterSlotsServiceTiming.default])]
    simp [ClusterSlotsServiceTiming.default]
  refine ⟨fun t a b => rfl, ?_, ?_, hfold, ?_, iterBody_filter_datapoint⟩
  · intro t a b h1 h2
    have e1 : (t.lowest_slot_elapsed + a) % 2 ^ 64 = t.lowest_slot_elapsed + a :=
      Nat.mod_eq_of_lt h1
    have e2 : (t.process_cluster_slots_updates_elapsed + b) % 2 ^ 64
        = t.process_cluster_slots_updates_elapsed + b := Nat.mod_eq_of_lt h2
    refine ⟨?_, ?_, ?_⟩
    · unfold ClusterSlotsServiceTiming.update
      rw [e1, e2]
    · show t.lowest_slot_elapsed ≤ (t.lowest_slot_elapsed + a) % 2 ^ 64
      rw [e1]
      exact Nat.le_add_right _ _
    · show t.process_cluster_slots_updates_elapsed
          ≤ (t.process_cluster_slots_updates_elapsed + b) % 2 ^ 64
      rw [e2]
      exact Nat.le_add_right _ _
  · intro a b c d
    simp [ClusterSlotsServiceTiming.update, ClusterSlotsServiceTiming.default,
      Nat.mod_add_mod]
  · intro l hs1 hs2
    rw [hfold l, Nat.mod_eq_of_lt hs1, Nat.mod_eq_of_lt hs2]

/-- Witness for C8 (amended) at a concrete update and a concrete fold, both
below the wrap boundary. -/
theorem claim_C8_witness :
    ((⟨5, 6⟩ : ClusterSlotsServiceTiming).lowest_slot_elapsed + 3 < 2 ^ 64
      ∧ (⟨5, 6⟩ : ClusterSlotsServiceTiming).process_cluster_slots_updates_elapsed + 4 < 2 ^ 64
      ∧ ((⟨5, 6⟩ : ClusterSlotsServiceTiming).update 3 4
            = ⟨(⟨5, 6⟩ : ClusterSlotsServiceTiming).lowest_slot_elapsed + 3,
               (⟨5, 6⟩ : ClusterSlotsServiceTiming).process_cluster_slots_updates_elapsed + 4⟩
          ∧ (⟨5, 6⟩ : ClusterSlotsServiceTiming).lowest_slot_elapsed
              ≤ ((⟨5, 6⟩ : ClusterSlotsServiceTiming).update 3 4).lowest_slot_elapsed
          ∧ (⟨5, 6⟩ : ClusterSlotsServiceTiming).process_cluster_slots_updates_elapsed
              ≤ ((⟨5, 6⟩ : ClusterSlotsServiceTiming).update 3 4).process_cluster_slots_updates_elapsed))
    ∧ (([(1, 2), (3, 4)] : List (Nat × Nat)).map Prod.fst).sum < 2 ^ 64
    ∧ (([(1, 2), (3, 4)] : List (Nat × Nat)).map Prod.snd).sum < 2 ^ 64
    ∧ ([(1, 2), (3, 4)] : List (Nat × Nat)).foldl (fun acc p => acc.update p.1 p.2)
          ClusterSlotsServiceTiming.default
        = ⟨(([(1, 2), (3, 4)] : List (Nat × Nat)).map Prod.fst).sum,
           (([(1, 2), (3, 4)] : List (Nat × Nat)).map Prod.snd).sum⟩ :=
  ⟨⟨by norm_num, by norm_num,
      claim_C8.2.1 ⟨5, 6⟩ 3 4 (by norm_num) (by norm_num)⟩,
    by norm_num, by norm_num,
    claim_C8.2.2.2.2.1 [(1, 2), (3, 4)] (by norm_num) (by norm_num)⟩

/-- C9: in the iteration that observes termination (exit flag set, or the timed
wait disconnected), the loop breaks before any per-iteration work: the final
trace holds at most the receive marker and the disconnect warning — no
advertisement of either kind, no lowest-slot query, no aggregate reconcile. -/
theorem claim_C9 (env : IterEnv) (rest : List IterEnv) (st : RunState)
    (h : env.exitFlag = true ∨ env.recv = RecvOutcome.disconnected) :
    ((runLoop (env :: rest) st).1
        = if env.exitFlag then [] else [Event.recvWait, Event.warnSenderDisconnected])
    ∧ ∀ e ∈ (runLoop (env :: rest) st).1,
        e = Event.recvWait ∨ e = Event.warnSenderDisconnected := by
  by_cases h1 : env.exitFlag
  · rw [runLoop_cons_exit env rest st h1]
    simp [h1]
  · rcases h with h | h
    · exact absurd h h1
    · rw [runLoop_cons_disconnect env rest st (by simp [h1]) h]
      simp [h1]

/-- Witness for C9 at a concrete iteration with the exit flag set. -/
theorem claim_C9_witness :
    (runLoop [⟨true, RecvOutcome.timeout, 0, 0, [], TryRecvErr.empty, 0, 0, 0⟩]
        ⟨ClusterSlotsServiceTiming.default, 0⟩).1
      = if (⟨true, RecvOutcome.timeout, 0, 0, [], TryRecvErr.empty, 0, 0, 0⟩ :
            IterEnv).exitFlag
        then [] else [Event.recvWait, Event.warnSenderDisconnected] :=
  (claim_C9 _ [] _ (Or.inl rfl)).1

/-- C10: if the channel turns empty or disconnected during the coalescer's
non-blocking drain, the drain just stops — same result for either stop reason,
so nothing fails; the gathered slots are still sorted and advertised when
non-empty, the iteration completes (epoch advertisements are exactly the
coalescer's output, the aggregate reconcile happens, and the loop proceeds to
the next iteration), and a disconnect only terminates the loop at the next
iteration's timed wait. -/
theorem claim_C10 (env : IterEnv) (rest : List IterEnv) (st : RunState) (batch : List Slot)
    (h1 : env.exitFlag = false) (h2 : env.recv = RecvOutcome.ok batch) :
    (∀ e1 e2 : TryRecvErr, drainPending batch env.drained e1 = drainPending batch env.drained e2)
    ∧ (∀ e1 e2 : TryRecvErr,
        process_cluster_slots_updates batch env.drained e1
          = process_cluster_slots_updates batch env.drained e2)
    ∧ ((iterBody env (some batch) st).1.filter isEpochAd
        = process_cluster_slots_updates batch env.drained env.drainStop)
    ∧ Event.updateClusterSlots env.root ∈ (iterBody env (some batch) st).1
    ∧ runLoop (env :: rest) st
        = (Event.recvWait :: (iterBody env (some batch) st).1
            ++ (runLoop rest (iterBody env (some batch) st).2).1,
           (runLoop rest (iterBody env (some batch) st).2).2) := by
  refine ⟨?_, ?_, ?_, ?_, ?_⟩
  · intro e1 e2
    rw [drainPending_eq_append, drainPending_eq_append]
  · intro e1 e2
    rw [process_cluster_slots_updates_eq, process_cluster_slots_updates_eq]
  · rw [iterBody_fst]
    by_cases hc : 2 < env.now - st.lastStats <;>
      simp [hc, isEpochAd, filter_epoch_process]
  · rw [iterBody_fst]
    by_cases hc : 2 < env.now - st.lastStats <;> simp [hc]
  · have hro : recvOption env.recv = some batch := by rw [h2]; rfl
    have := runLoop_cons_body env rest st h1 (by rw [h2]; simp)
    rw [hro] at this
    exact this

/-- Witness for C10 at a concrete iteration whose drain stops on disconnect. -/
theorem claim_C10_witness :
    Event.updateClusterSlots 9 ∈
      (iterBody ⟨false, RecvOutcome.ok [5, 3], 9, 1, [[5, 8]], TryRecvErr.disconnected, 0, 0, 0⟩
        (some [5, 3]) ⟨ClusterSlotsServiceTiming.default, 0⟩).1 :=
  (claim_C10 _ [] ⟨ClusterSlotsServiceTiming.default, 0⟩ [5, 3] rfl rfl).2.2.2.1

end ClusterSlotsService
